import Mathlib

/-!
# Verification of the dash-checkbox / dash-listbox widgets

A shallow embedding of the widget logic of `dash-checkbox.js` and
`dash-listbox.js` (the `DashCheckbox`, `DashListbox` and `DashOption`
custom elements).  DOM attribute state is modelled explicitly:

* presence-based boolean attributes (`checked`, `disabled`, `selected`)
  are `Bool` fields recording presence;
* string attributes that may be absent (`value`, `aria-*`, `tabindex`)
  are `Option String` fields (`none` = attribute absent, i.e. JS `null`
  from `getAttribute`);
* `attributeChangedCallback` runs synchronously on every observed
  attribute mutation, exactly as the custom-elements platform does;
* operations that can throw a `TypeError` in JS (reading a field of
  `undefined`, assigning to a field of `undefined`) are modelled with
  `Except Unit`, `Except.error ()` standing for the thrown exception;
* JS array access `a[i]` with a possibly negative or NaN index is
  modelled with `Option`-valued lookup, and the JS `%` operator on
  integers is `Int.tmod` (remainder with the sign of the dividend;
  `x % 0` is NaN and any array access at it yields `undefined`).
-/

/-- JS truthiness of a value that is either `undefined` (`none`) or a
boolean, as used by `if (this.disabled)` in `_toggleChecked`. -/
def jsTruthy : Option Bool → Bool
  | none => false
  | some b => b

/-- `String(b)` for a boolean `b`, as produced by
`setAttribute('aria-checked', newValue !== null)`. -/
def jsBoolString (b : Bool) : String :=
  if b then "true" else "false"

/-- State of a `<dash-checkbox>` element (dash-checkbox.js).
`u_disabled` models the instance field `_disabled` read by the
`disabled` getter (line 107); no code in the class ever assigns it, so
it stays `none` (JS `undefined`) unless external code pokes it. -/
structure DashCheckbox where
  checkedAttr : Bool
  disabledAttr : Bool
  ariaChecked : Option String
  ariaDisabled : Option String
  tabindexAttr : Option String
  focused : Bool
  u_disabled : Option Bool
deriving DecidableEq, Repr

/-- `attributeChangedCallback(name, oldValue, newValue)`
(dash-checkbox.js lines 115-140).  `newValue = none` models `null`
(attribute removed). -/
def DashCheckbox.attributeChanged (c : DashCheckbox) (name : String)
    (newValue : Option String) : DashCheckbox :=
  if name = "checked" then
    { c with ariaChecked := some (jsBoolString (newValue ≠ none)) }
  else if name = "disabled" then
    let isDisabled : Bool := newValue ≠ none
    let c := { c with ariaDisabled := some (jsBoolString isDisabled) }
    if isDisabled then
      let c := { c with tabindexAttr := none }
      if c.focused then { c with focused := false } else c
    else
      { c with tabindexAttr := some "0" }
  else c

/-- `setAttribute('checked', '')` / `removeAttribute('checked')`,
firing the observed-attribute callback.  `removeAttribute` only fires
the callback when the attribute was present. -/
def DashCheckbox.writeCheckedAttr (c : DashCheckbox) (present : Bool) :
    DashCheckbox :=
  if present then
    ({ c with checkedAttr := true }).attributeChanged "checked" (some "")
  else if c.checkedAttr then
    ({ c with checkedAttr := false }).attributeChanged "checked" none
  else c

/-- `setAttribute('disabled', '')` / `removeAttribute('disabled')`,
firing the observed-attribute callback. -/
def DashCheckbox.writeDisabledAttr (c : DashCheckbox) (present : Bool) :
    DashCheckbox :=
  if present then
    ({ c with disabledAttr := true }).attributeChanged "disabled" (some "")
  else if c.disabledAttr then
    ({ c with disabledAttr := false }).attributeChanged "disabled" none
  else c

/-- The `checked` setter (lines 68-74); the argument is the result of
the `Boolean(value)` coercion performed there. -/
def DashCheckbox.setChecked (c : DashCheckbox) (value : Bool) : DashCheckbox :=
  c.writeCheckedAttr value

/-- The `checked` getter (lines 76-78): `hasAttribute('checked')`. -/
def DashCheckbox.checked (c : DashCheckbox) : Bool :=
  c.checkedAttr

/-- The `disabled` setter (lines 83-104): reflects to the `disabled`
attribute, then removes `tabindex` and blurs (when disabling) or
restores `tabindex = "0"` (when enabling). -/
def DashCheckbox.setDisabled (c : DashCheckbox) (value : Bool) : DashCheckbox :=
  let c := c.writeDisabledAttr value
  if value then
    let c := { c with tabindexAttr := none }
    if c.focused then { c with focused := false } else c
  else
    { c with tabindexAttr := some "0" }

/-- The `disabled` getter (lines 106-108): `return this._disabled;` —
it reads the instance field, NOT the attribute. -/
def DashCheckbox.disabled (c : DashCheckbox) : Option Bool :=
  c.u_disabled

/-- `_toggleChecked` (lines 168-178).  Returns the new state together
with the detail of the dispatched `change` event (`some b` = one event
with `{checked: b}` was dispatched, `none` = no event). -/
def DashCheckbox.toggleChecked (c : DashCheckbox) : DashCheckbox × Option Bool :=
  if jsTruthy c.disabled then (c, none)
  else
    let c2 := c.setChecked (!c.checked)
    (c2, some c2.checked)

/-- `_onKeyDown` (lines 142-156): space (keyCode 32) without a modifier
toggles; everything else is passed through. -/
def DashCheckbox.onKeyDown (c : DashCheckbox) (altKey : Bool) (keyCode : Nat) :
    DashCheckbox × Option Bool :=
  if altKey then (c, none)
  else if keyCode = 32 then c.toggleChecked
  else (c, none)

/-- `_onClick` (lines 158-160): every click toggles. -/
def DashCheckbox.onClick (c : DashCheckbox) : DashCheckbox × Option Bool :=
  c.toggleChecked

/-- A freshly connected checkbox: no `checked`/`disabled` attribute,
`tabindex = "0"` from `connectedCallback`, not focused, and the
`_disabled` field untouched (`undefined`). -/
def cbInit : DashCheckbox :=
  { checkedAttr := false
    disabledAttr := false
    ariaChecked := none
    ariaDisabled := none
    tabindexAttr := some "0"
    focused := false
    u_disabled := none }

/-- State of a `<dash-option>` element (dash-listbox.js lines 264-327).
`valueAttr` is the `value` attribute (`none` = absent); `id` is the
element id (always a string after `connectedCallback` assigns the
generated one). -/
structure DashOption where
  selectedAttr : Bool
  valueAttr : Option String
  ariaSelected : Option String
  id : String
deriving DecidableEq, Repr

/-- The `selected` setter (lines 301-307) together with the
`attributeChangedCallback` for `selected` (lines 323-326), which runs
synchronously on the attribute mutation and writes
`aria-selected = String(newValue !== null)`.  `removeAttribute` fires
the callback only when the attribute was present. -/
def DashOption.setSelected (o : DashOption) (value : Bool) : DashOption :=
  if value then
    { o with selectedAttr := true, ariaSelected := some (jsBoolString true) }
  else if o.selectedAttr then
    { o with selectedAttr := false, ariaSelected := some (jsBoolString false) }
  else o

/-- The `selected` getter (lines 309-311): `hasAttribute('selected')`. -/
def DashOption.selected (o : DashOption) : Bool :=
  o.selectedAttr

/-- The `value` setter (lines 313-317): `setAttribute('value', val)`. -/
def DashOption.setValue (o : DashOption) (val : String) : DashOption :=
  { o with valueAttr := some val }

/-- The `value` getter (lines 319-321): `getAttribute('value')`, which
is the attribute string or `null` (`none`) when absent. -/
def DashOption.value (o : DashOption) : Option String :=
  o.valueAttr

/-- State of a `<dash-listbox>` element: its `<dash-option>` children
in document order (re-read on every operation, here simply the current
list) plus the `aria-activedescendant` attribute. -/
structure DashListbox where
  options : List DashOption
  ariaActivedescendant : Option String
deriving DecidableEq, Repr

/-- `Array.prototype.findIndex`: index of the first match, `-1` when
none matches. -/
def jsFindIndex {α : Type} (p : α → Bool) (l : List α) : Int :=
  match l.findIdx? p with
  | some i => (i : Int)
  | none => -1

/-- `options[idx % options.length]` where `idx` is a JS integer: JS `%`
is the truncating remainder (`Int.tmod`); `idx % 0` is NaN and the
array access at NaN yields `undefined`; a negative remainder indexes a
missing property (also `undefined`), while `-0` collapses to index 0
(in `Int` the two are already identified).  Returns the resulting valid
index, `none` standing for `undefined`. -/
def jsArrayModIdx {α : Type} (l : List α) (idx : Int) : Option Nat :=
  if l.length = 0 then none
  else
    let r := Int.tmod idx (l.length : Int)
    if r < 0 then none else some r.toNat

/-- `options[i]` for a JS integer index: `undefined` when out of
range or negative. -/
def jsArrayGet {α : Type} (l : List α) (i : Int) : Option α :=
  if i < 0 then none else l.get? i.toNat

/-- `_allOptions` (lines 173-175): the current `<dash-option>`
children. -/
def DashListbox.allOptions (lb : DashListbox) : List DashOption :=
  lb.options

/-- `_selectedOption` (lines 177-179): the first option with
`selected` set, `undefined` (`none`) when there is none. -/
def DashListbox.selectedOption (lb : DashListbox) : Option DashOption :=
  lb.allOptions.find? (fun o => o.selected)

/-- The index computed by `_prevOption` (lines 181-190):
`findIndex(selected) - 1`, then `(newIdx + options.length) %
options.length` used as the array index. -/
def DashListbox.prevOptionIdx (lb : DashListbox) : Option Nat :=
  let options := lb.allOptions
  let newIdx := jsFindIndex (fun o => o.selected) options - 1
  jsArrayModIdx options (newIdx + (options.length : Int))

/-- `_prevOption`'s return value: the option at the computed index, or
`undefined`. -/
def DashListbox.prevOption (lb : DashListbox) : Option DashOption :=
  lb.prevOptionIdx.bind (fun i => lb.allOptions.get? i)

/-- The index computed by `_nextOption` (lines 192-201):
`findIndex(selected) + 1`, then `newIdx % options.length`. -/
def DashListbox.nextOptionIdx (lb : DashListbox) : Option Nat :=
  let options := lb.allOptions
  let newIdx := jsFindIndex (fun o => o.selected) options + 1
  jsArrayModIdx options newIdx

/-- `_nextOption`'s return value. -/
def DashListbox.nextOption (lb : DashListbox) : Option DashOption :=
  lb.nextOptionIdx.bind (fun i => lb.allOptions.get? i)

/-- `_firstOption` (lines 203-206): `options[0]`. -/
def DashListbox.firstOption (lb : DashListbox) : Option DashOption :=
  jsArrayGet lb.allOptions 0

/-- The index used by `_firstOption`, as an index into the current
children: 0 when any child exists, `undefined` otherwise. -/
def DashListbox.firstOptionIdx (lb : DashListbox) : Option Nat :=
  if lb.allOptions.length = 0 then none else some 0

/-- The index used by `_lastOption` (lines 208-211):
`options[options.length - 1]`; for an empty list this is
`options[-1]`, i.e. `undefined`. -/
def DashListbox.lastOptionIdx (lb : DashListbox) : Option Nat :=
  if lb.allOptions.length = 0 then none else some (lb.allOptions.length - 1)

/-- `_lastOption`'s return value. -/
def DashListbox.lastOption (lb : DashListbox) : Option DashOption :=
  jsArrayGet lb.allOptions ((lb.allOptions.length : Int) - 1)

/-- `reset` (lines 222-227): clear `selected` on every option. -/
def DashListbox.reset (lb : DashListbox) : DashListbox :=
  { lb with options := lb.options.map (fun o => o.setSelected false) }

/-- `_selectOption(newOption)` (lines 213-220) for a target that is the
child at index `i`: `reset()`, then set the target's `selected` and
point `aria-activedescendant` at its id.  (A target index beyond the
children leaves the reset state, matching a target element that is not
a child.) -/
def DashListbox.selectOptionAt (lb : DashListbox) (i : Nat) : DashListbox :=
  let r := lb.reset
  match r.options.get? i with
  | some o =>
    let o2 := o.setSelected true
    { options := r.options.set i o2, ariaActivedescendant := some o2.id }
  | none => r

/-- `_selectOption(newOption)` where `newOption` may be `undefined`
(the navigation helpers return `undefined` on an empty listbox):
`newOption.selected = true` then throws a TypeError, modelled as
`Except.error ()`. -/
def DashListbox.selectOptionRef (lb : DashListbox) (target : Option Nat) :
    Except Unit DashListbox :=
  match target with
  | none => Except.error ()
  | some i => Except.ok (lb.selectOptionAt i)

/-- The `value` getter (lines 113-118): the selected option's `value`
(a string or `null`), or the string `''` when nothing is selected. -/
def DashListbox.value (lb : DashListbox) : Option String :=
  match lb.selectedOption with
  | some o => o.value
  | none => some ""

/-- JS loose equality `option.value == val` between the `value`
attribute (string or `null`) and a string `val`: for two strings it is
string equality; `null == string` is false. -/
def jsLooseEqAttrStr (a : Option String) (v : String) : Bool :=
  match a with
  | some s => s = v
  | none => false

/-- The `value` setter (lines 103-111): find the first option whose
`value` loosely equals `val`; select it, or `reset()` when none
matches. -/
def DashListbox.setValue (lb : DashListbox) (val : String) : DashListbox :=
  match lb.allOptions.findIdx? (fun o => jsLooseEqAttrStr o.value val) with
  | some i => lb.selectOptionAt i
  | none => lb.reset

/-- `_onFocus` (lines 120-124): `selectedOption || firstOption`, then
read `.id` of the result — a TypeError when both are `undefined` — set
`aria-activedescendant`, and dispatch an `input` event whose detail
carries `this.value`. -/
def DashListbox.onFocus (lb : DashListbox) :
    Except Unit (DashListbox × Option String) :=
  match lb.selectedOption.orElse (fun _ => lb.firstOption) with
  | none => Except.error ()
  | some o =>
    let lb2 := { lb with ariaActivedescendant := some o.id }
    Except.ok (lb2, lb2.value)

/-- The keys the `_onKeyDown` switch distinguishes (lines 126-162). -/
inductive LbKey
  | up
  | down
  | left
  | right
  | home
  | endKey
  | other
deriving DecidableEq, Repr

/-- `_onKeyDown` (lines 126-162).  With a modifier or an unrecognised
key nothing happens; otherwise the navigation result is passed to
`_selectOption` (which throws on `undefined`) and an `input` event is
dispatched.  The `Bool` records whether the event was dispatched. -/
def DashListbox.onKeyDown (lb : DashListbox) (altKey : Bool) (k : LbKey) :
    Except Unit (DashListbox × Bool) :=
  if altKey then Except.ok (lb, false)
  else
    match k with
    | LbKey.up => (lb.selectOptionRef lb.prevOptionIdx).map (fun l => (l, true))
    | LbKey.left => (lb.selectOptionRef lb.prevOptionIdx).map (fun l => (l, true))
    | LbKey.down => (lb.selectOptionRef lb.nextOptionIdx).map (fun l => (l, true))
    | LbKey.right => (lb.selectOptionRef lb.nextOptionIdx).map (fun l => (l, true))
    | LbKey.home => (lb.selectOptionRef lb.firstOptionIdx).map (fun l => (l, true))
    | LbKey.endKey => (lb.selectOptionRef lb.lastOptionIdx).map (fun l => (l, true))
    | LbKey.other => Except.ok (lb, false)

/-- One user step "select the result of `_nextOption()`", the Down/Right
branch of `_onKeyDown`.  Total for the iteration theorems: the
`undefined` branch (empty listbox, where the real handler throws) is
the identity; with at least one option it never arises. -/
def DashListbox.selectNext (lb : DashListbox) : DashListbox :=
  match lb.nextOptionIdx with
  | some i => lb.selectOptionAt i
  | none => lb

/-- One user step "select the result of `_prevOption()`", the Up/Left
branch of `_onKeyDown`, totalised the same way. -/
def DashListbox.selectPrev (lb : DashListbox) : DashListbox :=
  match lb.prevOptionIdx with
  | some i => lb.selectOptionAt i
  | none => lb

/-- The listbox mutations named by the at-most-one-selected invariant:
`_selectOption` with a child index, `reset`, and the `value` setter. -/
inductive LbOp
  | select (i : Nat)
  | resetOp
  | setVal (v : String)
deriving DecidableEq, Repr

/-- Apply one mutation. -/
def DashListbox.applyOp (lb : DashListbox) : LbOp → DashListbox
  | LbOp.select i => lb.selectOptionAt i
  | LbOp.resetOp => lb.reset
  | LbOp.setVal v => lb.setValue v

/-- Apply a sequence of mutations in order. -/
def DashListbox.applyOps (lb : DashListbox) (ops : List LbOp) : DashListbox :=
  ops.foldl DashListbox.applyOp lb

/-- The `selected` flags of the children, in document order. -/
def DashListbox.selMap (lb : DashListbox) : List Bool :=
  lb.options.map (fun o => o.selected)

/-- How many children have `selected = true`. -/
def DashListbox.countSelected (lb : DashListbox) : Nat :=
  lb.selMap.count true

/-- A boolean list that is `true` exactly at position `i`: the shape of
the `selected` flags after `_selectOption` on the child at `i`. -/
def oneHot (n i : Nat) : List Bool :=
  (List.replicate n false).set i true

/-- A `<dash-option>` in a given state (helper for concrete examples). -/
def mkOpt (sel : Bool) (v : Option String) (ident : String) : DashOption :=
  { selectedAttr := sel, valueAttr := v, ariaSelected := none, id := ident }

/-- A listbox with two options valued `"a"`, `"b"`, none selected. -/
def lbTwoNone : DashListbox :=
  { options := [mkOpt false (some "a") "id0", mkOpt false (some "b") "id1"]
    ariaActivedescendant := none }

/-- A listbox with one option valued `"a"`, not selected. -/
def lbOneNone : DashListbox :=
  { options := [mkOpt false (some "a") "id0"]
    ariaActivedescendant := none }

/-- A listbox with three options, the middle one selected. -/
def lbThreeSel : DashListbox :=
  { options := [mkOpt false (some "a") "id0", mkOpt true (some "b") "id1",
                mkOpt false (some "c") "id2"]
    ariaActivedescendant := none }

/-- A listbox with no options at all. -/
def lbEmpty : DashListbox :=
  { options := [], ariaActivedescendant := none }

/-- A listbox whose selected option has no `value` attribute. -/
def lbSelNoVal : DashListbox :=
  { options := [mkOpt true none "id0"], ariaActivedescendant := none }

/-- A listbox whose selected option has `value=""`. -/
def lbSelEmptyVal : DashListbox :=
  { options := [mkOpt true (some "") "id0"], ariaActivedescendant := none }

/-- C1: the claim says a user-driven toggle (click or space keydown) on
a disabled checkbox is a silent no-op.  The code violates this: after
`disabled = true` the `disabled` attribute is present, but the
`disabled` getter returns the never-assigned `_disabled` field
(`undefined`), so the guard in `_toggleChecked` never fires — the
toggle still flips `checked` and dispatches a `change` event. -/
theorem c1_disabled_toggle_still_fires :
    (cbInit.setDisabled true).disabledAttr = true ∧
    ((cbInit.setDisabled true).onKeyDown false 32).1.checked = true ∧
    ((cbInit.setDisabled true).onKeyDown false 32).2 = some true ∧
    ((cbInit.setDisabled true).onClick).2 = some true := by
  decide

/-- C2: the reflection contract fails for the `disabled` flag: setting
the property to `true` makes the attribute present, but reading the
property back returns `undefined` (the never-assigned `_disabled`
field), not `true`.  For contrast, the `checked` flag does round-trip. -/
theorem c2_disabled_reflection_broken :
    (cbInit.setDisabled true).disabledAttr = true ∧
    (cbInit.setDisabled true).disabled = none ∧
    (cbInit.setDisabled true).disabled ≠ some true ∧
    (cbInit.setChecked true).checkedAttr = true ∧
    (cbInit.setChecked true).checked = true := by
  decide

/-- C8: with zero options, `_prevOption`, `_nextOption`, `_firstOption`
and `_lastOption` all return `undefined`, and every navigation key makes
`_onKeyDown` pass that `undefined` to `_selectOption`, which throws —
there is no defined no-op fallback. -/
theorem c8_empty_navigation_faults (lb : DashListbox)
    (h : lb.options = []) :
    lb.prevOption = none ∧ lb.nextOption = none ∧
    lb.firstOption = none ∧ lb.lastOption = none ∧
    lb.onKeyDown false LbKey.up = Except.error () ∧
    lb.onKeyDown false LbKey.down = Except.error () ∧
    lb.onKeyDown false LbKey.home = Except.error () ∧
    lb.onKeyDown false LbKey.endKey = Except.error () := by
  obtain ⟨opts, ad⟩ := lb
  cases h
  exact ⟨rfl, rfl, rfl, rfl, rfl, rfl, rfl, rfl⟩

/-- Witness for C8 on the concrete empty listbox. -/
theorem c8_empty_navigation_faults_w :
    lbEmpty.prevOption = none ∧ lbEmpty.nextOption = none ∧
    lbEmpty.firstOption = none ∧ lbEmpty.lastOption = none ∧
    lbEmpty.onKeyDown false LbKey.up = Except.error () ∧
    lbEmpty.onKeyDown false LbKey.down = Except.error () ∧
    lbEmpty.onKeyDown false LbKey.home = Except.error () ∧
    lbEmpty.onKeyDown false LbKey.endKey = Except.error () :=
  c8_empty_navigation_faults lbEmpty rfl

/-- C9: with zero options, `_onFocus` also throws: both
`_selectedOption()` and `_firstOption()` are `undefined`, and reading
`.id` of the result faults. -/
theorem c9_empty_focus_faults (lb : DashListbox)
    (h : lb.options = []) :
    lb.onFocus = Except.error () := by
  obtain ⟨opts, ad⟩ := lb
  cases h
  rfl

/-- Witness for C9 on the concrete empty listbox. -/
theorem c9_empty_focus_faults_w : lbEmpty.onFocus = Except.error () :=
  c9_empty_focus_faults lbEmpty rfl

/-- C10 counterexample: an option selected with `value=""` makes the
`value` getter return the empty string even though an option IS
selected, refuting "the empty-string result occurs only when no option
is selected at all". -/
theorem c10_empty_string_while_selected :
    lbSelEmptyVal.value = some "" ∧ lbSelEmptyVal.selectedOption ≠ none := by
  decide

/-- C10 (amended): if the selected option carries no `value` attribute
the getter returns `null` (`none`), never the empty string; and an
empty-string result means either no option is selected or the selected
option's `value` attribute is itself the empty string. -/
theorem c10_value_null_when_attr_absent (lb : DashListbox) :
    (∀ o, lb.selectedOption = some o → o.value = none → lb.value = none) ∧
    (lb.value = some "" →
      lb.selectedOption = none ∨
      ∃ o, lb.selectedOption = some o ∧ o.value = some "") := by
  constructor
  · intro o h hv
    simp only [DashListbox.value, h, hv]
  · intro h
    cases hsel : lb.selectedOption with
    | none => exact Or.inl rfl
    | some o =>
      refine Or.inr ⟨o, rfl, ?_⟩
      simpa only [DashListbox.value, hsel] using h

/-- Witness for C10 (amended) on the concrete listbox whose selected
option has no `value` attribute. -/
theorem c10_value_null_when_attr_absent_w : lbSelNoVal.value = none :=
  (c10_value_null_when_attr_absent lbSelNoVal).1 (mkOpt true none "id0")
    (by decide) (by decide)

/-- `setSelected` leaves the `selected` flag exactly at the requested
value. -/
theorem DashOption.selected_setSelected (o : DashOption) (b : Bool) :
    (o.setSelected b).selected = b := by
  cases b <;> by_cases h : o.selectedAttr <;>
    simp [DashOption.setSelected, DashOption.selected, h]

/-- `setSelected` does not touch the `value` attribute. -/
theorem DashOption.value_setSelected (o : DashOption) (b : Bool) :
    (o.setSelected b).value = o.value := by
  cases b <;> by_cases h : o.selectedAttr <;>
    simp [DashOption.setSelected, DashOption.value, h]

/-- Clearing every option leaves an all-`false` selection map. -/
theorem map_selected_setFalse (l : List DashOption) :
    (l.map (fun o => o.setSelected false)).map (fun o => o.selected)
      = List.replicate l.length false := by
  induction l with
  | nil => rfl
  | cons a t ih =>
    simp [List.replicate_succ, ih, DashOption.selected_setSelected]

/-- The selection map after `reset`. -/
theorem DashListbox.selMap_reset (lb : DashListbox) :
    lb.reset.selMap = List.replicate lb.options.length false := by
  simpa [DashListbox.reset, DashListbox.selMap] using
    map_selected_setFalse lb.options

/-- `reset` keeps the number of children. -/
theorem DashListbox.length_reset (lb : DashListbox) :
    lb.reset.options.length = lb.options.length := by
  simp [DashListbox.reset]

/-- Every option of a reset listbox is unselected. -/
theorem DashListbox.reset_not_selected (lb : DashListbox) :
    ∀ o ∈ lb.reset.options, o.selected = false := by
  intro o ho
  rw [DashListbox.reset] at ho
  simp only [List.mem_map] at ho
  obtain ⟨a, _, rfl⟩ := ho
  exact DashOption.selected_setSelected a false

/-- `_selectOption` keeps the number of children. -/
theorem DashListbox.length_selectOptionAt (lb : DashListbox) (i : Nat) :
    (lb.selectOptionAt i).options.length = lb.options.length := by
  unfold DashListbox.selectOptionAt
  dsimp only
  split
  · simp [DashListbox.reset]
  · simp [DashListbox.reset]

/-- Mapping `selected` commutes with a point update. -/
theorem map_selected_set (l : List DashOption) (i : Nat) (x : DashOption) :
    (l.set i x).map (fun o => o.selected)
      = (l.map (fun o => o.selected)).set i x.selected := by
  induction l generalizing i with
  | nil => simp
  | cons a t ih => cases i <;> simp [ih]

/-- The selection map after `_selectOption` on the child at `i`. -/
theorem DashListbox.selMap_selectOptionAt (lb : DashListbox) (i : Nat)
    (h : i < lb.options.length) :
    (lb.selectOptionAt i).selMap = oneHot lb.options.length i := by
  unfold DashListbox.selectOptionAt
  dsimp only
  split
  case h_2 hg =>
    exfalso
    rw [List.get?_eq_getElem?, List.getElem?_eq_none_iff] at hg
    rw [DashListbox.length_reset] at hg
    omega
  case h_1 o hg =>
    have hmap : ((lb.reset.options.set i (o.setSelected true)).map
        (fun o => o.selected))
        = (lb.reset.options.map (fun o => o.selected)).set i true := by
      rw [map_selected_set]
      rw [DashOption.selected_setSelected]
    have hrep := congrArg (fun l => List.set l i true) (DashListbox.selMap_reset lb)
    simp only [DashListbox.selMap] at hrep
    simpa [DashListbox.selMap, oneHot, hmap] using hrep

/-- A `findIdx?` hit returns a position whose element satisfies the
predicate. -/
theorem findIdx?_some_get {α : Type} (p : α → Bool) (l : List α) (i : Nat)
    (h : l.findIdx? p = some i) : ∃ x, l.get? i = some x ∧ p x = true := by
  rw [List.findIdx?_eq_some_iff_findIdx_eq] at h
  obtain ⟨hlt, hfi⟩ := h
  subst hfi
  refine ⟨l.get ⟨List.findIdx p l, hlt⟩, List.get?_eq_some.mpr ⟨hlt, rfl⟩, ?_⟩
  have := @List.findIdx_getElem _ p l hlt
  simpa [List.get_eq_getElem] using this

/-- `findIdx?` over the boolean identity on a one-hot list finds the
hot position. -/
theorem findIdx?_oneHot (n i : Nat) (h : i < n) :
    (oneHot n i).findIdx? (fun b => b) = some i := by
  induction n generalizing i with
  | zero => omega
  | succ m ih =>
    cases i with
    | zero =>
      simp [oneHot, List.replicate_succ, List.findIdx?_cons]
    | succ j =>
      have hsh : oneHot (m + 1) (j + 1) = false :: oneHot m j := by
        simp [oneHot, List.replicate_succ]
      rw [hsh, List.findIdx?_cons]
      simp [List.findIdx?_succ, ih j (by omega)]

/-- An all-`false` list has no `findIdx?` hit for the identity. -/
theorem findIdx?_replicate_false (n : Nat) :
    (List.replicate n false).findIdx? (fun b => b) = none := by
  rw [List.findIdx?_eq_none_iff]
  intro x hx
  simpa using (List.eq_of_mem_replicate hx)

/-- `findIdx?` on the children agrees with `findIdx?` on the selection
map (the source's `findIndex(option => option.selected)`). -/
theorem findIdx?_selected_eq_selMap (lb : DashListbox) :
    lb.options.findIdx? (fun o => o.selected)
      = lb.selMap.findIdx? (fun b => b) := by
  rw [DashListbox.selMap, List.findIdx?_map]
  rfl

/-- A boolean list with exactly one `true` is one-hot. -/
theorem count_zero_replicate (t : List Bool) (h : t.count true = 0) :
    t = List.replicate t.length false := by
  induction t with
  | nil => rfl
  | cons b s ih =>
    cases b with
    | true => simp [List.count_cons] at h
    | false =>
      have hs : s.count true = 0 := by simpa [List.count_cons] using h
      simpa [List.replicate_succ] using ih hs

/-- A boolean list counting exactly one `true` is `oneHot` at some
in-range position. -/
theorem oneHot_of_count_one (bs : List Bool) (h : bs.count true = 1) :
    ∃ i, i < bs.length ∧ bs = oneHot bs.length i := by
  induction bs with
  | nil => simp at h
  | cons b t ih =>
    cases b with
    | true =>
      have ht : t.count true = 0 := by
        have := h
        simp [List.count_cons] at this
        omega
      refine ⟨0, by simp, ?_⟩
      have := count_zero_replicate t ht
      simp [oneHot, List.replicate_succ]
      exact this
    | false =>
      have ht : t.count true = 1 := by simpa [List.count_cons] using h
      obtain ⟨j, hj, hoh⟩ := ih ht
      refine ⟨j + 1, by simpa using Nat.succ_lt_succ hj, ?_⟩
      have hsh : oneHot (t.length + 1) (j + 1) = false :: oneHot t.length j := by
        simp [oneHot, List.replicate_succ]
      simp only [List.length_cons, hsh]
      exact congrArg (fun l => false :: l) hoh

/-- A listbox with exactly one selected child has a one-hot selection
map. -/
theorem DashListbox.exists_oneHot_selMap (lb : DashListbox)
    (h : lb.countSelected = 1) :
    ∃ i, i < lb.options.length ∧ lb.selMap = oneHot lb.options.length i := by
  have hl : lb.selMap.length = lb.options.length := by
    simp [DashListbox.selMap]
  obtain ⟨i, hi, hoh⟩ := oneHot_of_count_one lb.selMap h
  rw [hl] at hi hoh
  exact ⟨i, hi, hoh⟩

/-- A one-hot list contains at most one `true`. -/
theorem count_oneHot_le (n i : Nat) : (oneHot n i).count true ≤ 1 := by
  induction n generalizing i with
  | zero => simp [oneHot]
  | succ m ih =>
    cases i with
    | zero =>
      simp [oneHot, List.replicate_succ, List.count_cons, List.count_replicate]
    | succ j =>
      have hsh : oneHot (m + 1) (j + 1) = false :: oneHot m j := by
        simp [oneHot, List.replicate_succ]
      simpa [hsh, List.count_cons] using ih j

/-- `jsArrayModIdx` at a non-negative (natural) index is ordinary
modulo lookup. -/
theorem jsArrayModIdx_natCast {α : Type} (l : List α) (m : Nat)
    (hl : l.length ≠ 0) :
    jsArrayModIdx l (m : Int) = some (m % l.length) := by
  rw [jsArrayModIdx]
  have ht : Int.tmod (m : Int) (l.length : Int) = ((m % l.length : Nat) : Int) := by
    simp [Int.tmod]
  simp only [hl, if_false, ht]
  simp
  omega

/-- With a one-hot selection at `i`, `_nextOption` computes the index
`(i + 1) % n`. -/
theorem DashListbox.nextOptionIdx_oneHot (lb : DashListbox) (i : Nat)
    (hsel : lb.selMap = oneHot lb.options.length i)
    (hi : i < lb.options.length) :
    lb.nextOptionIdx = some ((i + 1) % lb.options.length) := by
  have hf : lb.options.findIdx? (fun o => o.selected) = some i := by
    rw [findIdx?_selected_eq_selMap, hsel]
    exact findIdx?_oneHot _ _ hi
  rw [DashListbox.nextOptionIdx]
  have hji : jsFindIndex (fun o => o.selected) lb.allOptions = (i : Int) := by
    simp [jsFindIndex, DashListbox.allOptions, hf]
  rw [hji]
  have hc : (i : Int) + 1 = ((i + 1 : Nat) : Int) := by push_cast; ring
  rw [hc, jsArrayModIdx_natCast]
  · rfl
  · simp only [DashListbox.allOptions]
    omega

/-- With a one-hot selection at `i`, `_prevOption` computes the index
`(i + n - 1) % n`. -/
theorem DashListbox.prevOptionIdx_oneHot (lb : DashListbox) (i : Nat)
    (hsel : lb.selMap = oneHot lb.options.length i)
    (hi : i < lb.options.length) :
    lb.prevOptionIdx
      = some ((i + lb.options.length - 1) % lb.options.length) := by
  have hf : lb.options.findIdx? (fun o => o.selected) = some i := by
    rw [findIdx?_selected_eq_selMap, hsel]
    exact findIdx?_oneHot _ _ hi
  rw [DashListbox.prevOptionIdx]
  have hji : jsFindIndex (fun o => o.selected) lb.allOptions = (i : Int) := by
    simp [jsFindIndex, DashListbox.allOptions, hf]
  rw [hji]
  have hc : (i : Int) - 1 + (lb.allOptions.length : Int)
      = ((i + lb.allOptions.length - 1 : Nat) : Int) := by
    have h1 : 1 ≤ i + lb.allOptions.length := by
      simp only [DashListbox.allOptions]; omega
    push_cast [Nat.cast_sub h1]
    ring
  rw [hc, jsArrayModIdx_natCast]
  · rfl
  · simp only [DashListbox.allOptions]
    omega

/-- One Down/Right keyboard step from a one-hot selection: the hot
position advances by one, cyclically, and the child count is kept. -/
theorem DashListbox.selectNext_oneHot (lb : DashListbox) (i : Nat)
    (hsel : lb.selMap = oneHot lb.options.length i)
    (hi : i < lb.options.length) :
    (lb.selectNext).selMap
        = oneHot lb.options.length ((i + 1) % lb.options.length) ∧
    (lb.selectNext).options.length = lb.options.length := by
  have hn := lb.nextOptionIdx_oneHot i hsel hi
  rw [DashListbox.selectNext, hn]
  have hlt : (i + 1) % lb.options.length < lb.options.length :=
    Nat.mod_lt _ (by omega)
  exact ⟨lb.selMap_selectOptionAt _ hlt, lb.length_selectOptionAt _⟩

/-- One Up/Left keyboard step from a one-hot selection: the hot
position recedes by one, cyclically, and the child count is kept. -/
theorem DashListbox.selectPrev_oneHot (lb : DashListbox) (i : Nat)
    (hsel : lb.selMap = oneHot lb.options.length i)
    (hi : i < lb.options.length) :
    (lb.selectPrev).selMap
        = oneHot lb.options.length
            ((i + lb.options.length - 1) % lb.options.length) ∧
    (lb.selectPrev).options.length = lb.options.length := by
  have hp := lb.prevOptionIdx_oneHot i hsel hi
  rw [DashListbox.selectPrev, hp]
  have hlt : (i + lb.options.length - 1) % lb.options.length
      < lb.options.length := Nat.mod_lt _ (by omega)
  exact ⟨lb.selMap_selectOptionAt _ hlt, lb.length_selectOptionAt _⟩

/-- Iterating the Down/Right step `k` times advances the hot position
by `k`, cyclically. -/
theorem DashListbox.iterate_selectNext_oneHot (k : Nat) (lb : DashListbox)
    (i : Nat) (hsel : lb.selMap = oneHot lb.options.length i)
    (hi : i < lb.options.length) :
    (Nat.iterate DashListbox.selectNext k lb).selMap
        = oneHot lb.options.length ((i + k) % lb.options.length) ∧
    (Nat.iterate DashListbox.selectNext k lb).options.length
        = lb.options.length := by
  induction k generalizing lb i with
  | zero =>
    refine ⟨?_, rfl⟩
    rw [Nat.add_zero, Nat.mod_eq_of_lt hi]
    exact hsel
  | succ m ih =>
    obtain ⟨hs1, hs2⟩ := lb.selectNext_oneHot i hsel hi
    have hlt : (i + 1) % lb.options.length < lb.options.length :=
      Nat.mod_lt _ (by omega)
    have ih2 := ih lb.selectNext ((i + 1) % lb.options.length)
      (by rw [hs2]; exact hs1) (by rw [hs2]; exact hlt)
    rw [Function.iterate_succ_apply]
    rw [hs2] at ih2
    obtain ⟨ia, ib⟩ := ih2
    refine ⟨?_, ib⟩
    rw [ia, Nat.mod_add_mod]
    have : i + 1 + m = i + (m + 1) := by omega
    rw [this]

/-- After `reset` no option is found selected. -/
theorem DashListbox.selectedOption_reset (lb : DashListbox) :
    lb.reset.selectedOption = none := by
  rw [DashListbox.selectedOption, DashListbox.allOptions, List.find?_eq_none]
  intro x hx
  simp [lb.reset_not_selected x hx]

/-- `find?` of the selected flag on an all-unselected list with one
position overwritten by a selected option yields that option. -/
theorem find?_selected_set (l : List DashOption) (i : Nat) (x : DashOption)
    (hall : ∀ o ∈ l, o.selected = false) (hx : x.selected = true)
    (hi : i < l.length) :
    (l.set i x).find? (fun o => o.selected) = some x := by
  induction l generalizing i with
  | nil => simp at hi
  | cons a t ih =>
    cases i with
    | zero =>
      simpa [List.set] using List.find?_cons_of_pos t hx
    | succ j =>
      have ha : a.selected = false := hall a (by simp)
      have hrest := ih j (fun o ho => hall o (by simp [ho])) (by simpa using hi)
      simpa [List.set, List.find?_cons_of_neg, ha] using hrest

/-- The selected option after `_selectOption` on the child at `i` is
that child with its `selected` attribute rewritten. -/
theorem DashListbox.selectedOption_selectOptionAt (lb : DashListbox) (i : Nat)
    (o : DashOption) (h : lb.options.get? i = some o) :
    (lb.selectOptionAt i).selectedOption
      = some ((o.setSelected false).setSelected true) := by
  have hg : lb.reset.options.get? i = some (o.setSelected false) := by
    simp only [DashListbox.reset]
    rw [List.get?_map, h]
    rfl
  have hi : i < lb.reset.options.length := by
    rw [DashListbox.length_reset]
    rw [List.get?_eq_some] at h
    exact h.1
  unfold DashListbox.selectOptionAt
  dsimp only
  rw [hg]
  rw [DashListbox.selectedOption, DashListbox.allOptions]
  exact find?_selected_set _ _ _ lb.reset_not_selected
    (DashOption.selected_setSelected _ true) hi

/-- `reset` leaves zero selected options. -/
theorem DashListbox.countSelected_reset (lb : DashListbox) :
    lb.reset.countSelected = 0 := by
  rw [DashListbox.countSelected, DashListbox.selMap_reset]
  simp [List.count_replicate]

/-- `_selectOption` leaves at most one selected option. -/
theorem DashListbox.countSelected_selectOptionAt (lb : DashListbox) (i : Nat) :
    (lb.selectOptionAt i).countSelected ≤ 1 := by
  by_cases h : i < lb.options.length
  · rw [DashListbox.countSelected, lb.selMap_selectOptionAt i h]
    exact count_oneHot_le _ _
  · have hg : lb.reset.options.get? i = none := by
      rw [List.get?_eq_getElem?, List.getElem?_eq_none_iff,
        DashListbox.length_reset]
      omega
    unfold DashListbox.selectOptionAt
    dsimp only
    rw [hg]
    rw [lb.countSelected_reset]
    omega

/-- The `value` setter leaves at most one selected option. -/
theorem DashListbox.countSelected_setValue (lb : DashListbox) (v : String) :
    (lb.setValue v).countSelected ≤ 1 := by
  rw [DashListbox.setValue]
  cases hf : lb.allOptions.findIdx? (fun o => jsLooseEqAttrStr o.value v) with
  | some i => exact lb.countSelected_selectOptionAt i
  | none => rw [lb.countSelected_reset]; omega

/-- Every listbox mutation leaves at most one selected option,
whatever the starting state. -/
theorem DashListbox.countSelected_applyOp (lb : DashListbox) (op : LbOp) :
    (lb.applyOp op).countSelected ≤ 1 := by
  cases op with
  | select i => exact lb.countSelected_selectOptionAt i
  | resetOp => rw [DashListbox.applyOp, lb.countSelected_reset]; omega
  | setVal v => exact lb.countSelected_setValue v

/-- Folding any further mutations preserves "at most one selected". -/
theorem DashListbox.foldl_applyOp_le_one (ops : List LbOp) (lb : DashListbox)
    (h : lb.countSelected ≤ 1) :
    (ops.foldl DashListbox.applyOp lb).countSelected ≤ 1 := by
  induction ops generalizing lb with
  | nil => simpa using h
  | cons op rest ih =>
    rw [List.foldl_cons]
    exact ih (lb.applyOp op) (lb.countSelected_applyOp op)

/-- C3 counterexample: two options, none selected — `_prevOption` does
NOT return the last option (it lands on the first, i.e. index
`n - 2 = 0`), refuting "prevOption() returns the last option". -/
theorem c3_prev_without_selection_not_last :
    lbTwoNone.countSelected = 0 ∧ lbTwoNone.options.length = 2 ∧
    lbTwoNone.prevOption ≠ lbTwoNone.lastOption ∧
    lbTwoNone.prevOption = lbTwoNone.firstOption := by
  decide

/-- C3 (amended): with `n ≥ 1` options and none selected,
`_nextOption` returns the first option, but `_prevOption` returns the
option at index `(n - 2) mod n` — the second-to-last for `n ≥ 2`, the
sole option for `n = 1` — because `findIndex` yields `-1` and the code
subtracts one more before wrapping. -/
theorem c3_nav_without_selection (lb : DashListbox)
    (h0 : lb.countSelected = 0) (h1 : lb.options.length ≠ 0) :
    lb.nextOption = lb.options.get? 0 ∧
    lb.prevOption = lb.options.get?
      (if lb.options.length = 1 then 0 else lb.options.length - 2) := by
  have hall : ∀ o ∈ lb.options, o.selected = false := by
    intro o ho
    by_contra hsel
    have htrue : o.selected = true := by
      cases hs : o.selected
      · exact absurd hs hsel
      · rfl
    have hmem : true ∈ lb.selMap := by
      rw [DashListbox.selMap]
      exact List.mem_map.mpr ⟨o, ho, htrue⟩
    have := List.count_eq_zero.mp h0
    exact this hmem
  have hf : lb.options.findIdx? (fun o => o.selected) = none :=
    List.findIdx?_eq_none_iff.mpr hall
  have hji : jsFindIndex (fun o => o.selected) lb.allOptions = -1 := by
    simp [jsFindIndex, DashListbox.allOptions, hf]
  constructor
  · have hidx : lb.nextOptionIdx = some 0 := by
      rw [DashListbox.nextOptionIdx, hji]
      have hc : (-1 : Int) + 1 = ((0 : Nat) : Int) := by norm_num
      rw [hc]
      rw [jsArrayModIdx_natCast lb.allOptions 0
        (by simp only [DashListbox.allOptions]; omega)]
      simp
    rw [DashListbox.nextOption, hidx]
    simp [DashListbox.allOptions]
  · by_cases hone : lb.options.length = 1
    · have hidx : lb.prevOptionIdx = some 0 := by
        rw [DashListbox.prevOptionIdx, hji]
        have hlen : lb.allOptions.length = 1 := hone
        simp only [jsArrayModIdx, hlen]
        decide
      rw [DashListbox.prevOption, hidx]
      simp [DashListbox.allOptions, hone]
    · have h2 : 2 ≤ lb.options.length := by omega
      have hidx : lb.prevOptionIdx = some (lb.options.length - 2) := by
        rw [DashListbox.prevOptionIdx, hji]
        have hc : (-1 : Int) - 1 + (lb.allOptions.length : Int)
            = ((lb.options.length - 2 : Nat) : Int) := by
          simp only [DashListbox.allOptions]
          push_cast [Nat.cast_sub h2]
          ring
        rw [hc]
        rw [jsArrayModIdx_natCast lb.allOptions (lb.options.length - 2)
          (by simp only [DashListbox.allOptions]; omega)]
        congr 1
        simp only [DashListbox.allOptions]
        exact Nat.mod_eq_of_lt (by omega)
      rw [DashListbox.prevOption, hidx]
      simp [DashListbox.allOptions, hone]

/-- Witness for C3 (amended) on the two-option unselected listbox. -/
theorem c3_nav_without_selection_w :
    lbTwoNone.nextOption = lbTwoNone.options.get? 0 ∧
    lbTwoNone.prevOption = lbTwoNone.options.get?
      (if lbTwoNone.options.length = 1 then 0 else lbTwoNone.options.length - 2) :=
  c3_nav_without_selection lbTwoNone (by decide) (by decide)

/-- C4: after any non-empty sequence of `_selectOption` / `reset` /
`value`-setter mutations — from ANY starting state — at most one child
has `selected = true`: each mutation starts with a full clear. -/
theorem c4_at_most_one_selected (lb : DashListbox) (ops : List LbOp)
    (h : ops ≠ []) : (lb.applyOps ops).countSelected ≤ 1 := by
  cases ops with
  | nil => exact absurd rfl h
  | cons op rest =>
    rw [DashListbox.applyOps, List.foldl_cons]
    exact DashListbox.foldl_applyOp_le_one rest (lb.applyOp op)
      (lb.countSelected_applyOp op)

/-- Witness for C4 on a concrete listbox and mutation sequence. -/
theorem c4_at_most_one_selected_w :
    (lbThreeSel.applyOps
      [LbOp.select 0, LbOp.setVal "b", LbOp.resetOp, LbOp.select 2]).countSelected
      ≤ 1 :=
  c4_at_most_one_selected lbThreeSel
    [LbOp.select 0, LbOp.setVal "b", LbOp.resetOp, LbOp.select 2] (by decide)

/-- C5 counterexample: `setValue("")` on a listbox with no option
valued `""` resets the selection, and the getter then returns `""` —
equal to the value just set — even though no option has that value,
refuting the claimed "if and only if". -/
theorem c5_empty_string_counterexample :
    (lbOneNone.setValue "").value = some "" ∧
    (∀ o ∈ lbOneNone.allOptions, jsLooseEqAttrStr o.value "" = false) := by
  decide

/-- C5 (amended): for `v ≠ ""`, `setValue(v)` followed by the getter
returns `v` iff some option's `value` loosely equals `v`; and when no
option matches, the getter returns `""` and no option is selected.
(For `v = ""` the equivalence fails: the no-match reset also makes the
getter return `""`.) -/
theorem c5_setValue_then_value (lb : DashListbox) (v : String)
    (hv : v ≠ "") :
    ((lb.setValue v).value = some v ↔
      ∃ o ∈ lb.allOptions, jsLooseEqAttrStr o.value v = true) ∧
    ((∀ o ∈ lb.allOptions, jsLooseEqAttrStr o.value v = false) →
      (lb.setValue v).value = some "" ∧
      (lb.setValue v).selectedOption = none) := by
  cases hf : lb.allOptions.findIdx? (fun o => jsLooseEqAttrStr o.value v) with
  | some i =>
    obtain ⟨o, hgo, hpo⟩ := findIdx?_some_get _ _ _ hf
    have hov : o.value = some v := by
      cases hx : o.value with
      | none => rw [hx] at hpo; simp [jsLooseEqAttrStr] at hpo
      | some s =>
        rw [hx] at hpo
        simp only [jsLooseEqAttrStr, decide_eq_true_eq] at hpo
        rw [hpo]
    have hsv : lb.setValue v = lb.selectOptionAt i := by
      rw [DashListbox.setValue, hf]
    have hsel := lb.selectedOption_selectOptionAt i o hgo
    have hval : (lb.selectOptionAt i).value = some v := by
      rw [DashListbox.value, hsel]
      show ((o.setSelected false).setSelected true).value = some v
      rw [DashOption.value_setSelected, DashOption.value_setSelected]
      exact hov
    constructor
    · constructor
      · intro _
        exact ⟨o, List.get?_mem hgo, hpo⟩
      · intro _
        rw [hsv]
        exact hval
    · intro hall
      have := hall o (List.get?_mem hgo)
      rw [this] at hpo
      exact absurd hpo (by simp)
  | none =>
    have hsv : lb.setValue v = lb.reset := by
      rw [DashListbox.setValue, hf]
    have hval : (lb.setValue v).value = some "" := by
      rw [hsv, DashListbox.value, lb.selectedOption_reset]
    constructor
    · constructor
      · intro hvv
        rw [hval] at hvv
        injection hvv with heq
        exact absurd heq.symm hv
      · rintro ⟨o, ho, hpo⟩
        have := List.findIdx?_eq_none_iff.mp hf o ho
        rw [this] at hpo
        exact absurd hpo (by simp)
    · intro _
      refine ⟨hval, ?_⟩
      rw [hsv]
      exact lb.selectedOption_reset

/-- Witness for C5 (amended) on a concrete listbox and value. -/
theorem c5_setValue_then_value_w :
    ((lbThreeSel.setValue "c").value = some "c" ↔
      ∃ o ∈ lbThreeSel.allOptions, jsLooseEqAttrStr o.value "c" = true) ∧
    ((∀ o ∈ lbThreeSel.allOptions, jsLooseEqAttrStr o.value "c" = false) →
      (lbThreeSel.setValue "c").value = some "" ∧
      (lbThreeSel.setValue "c").selectedOption = none) :=
  c5_setValue_then_value lbThreeSel "c" (by decide)

/-- C6 counterexample: starting from "no selection", composing the
select-next step `n` times does NOT restore the no-selection state —
one option ends up selected. -/
theorem c6_cycle_fails_without_selection :
    lbOneNone.countSelected = 0 ∧
    (Nat.iterate DashListbox.selectNext lbOneNone.options.length lbOneNone).selMap
      ≠ lbOneNone.selMap := by
  decide

/-- C6 (amended): with exactly one option selected, composing "select
the result of `_nextOption()`" `n` times (`n` = option count) restores
the original selection flags. -/
theorem c6_next_cycle (lb : DashListbox) (h : lb.countSelected = 1) :
    (Nat.iterate DashListbox.selectNext lb.options.length lb).selMap
      = lb.selMap := by
  obtain ⟨i, hi, hsel⟩ := lb.exists_oneHot_selMap h
  have hiter :=
    (DashListbox.iterate_selectNext_oneHot lb.options.length lb i hsel hi).1
  rw [hiter, hsel, Nat.add_mod_right, Nat.mod_eq_of_lt hi]

/-- Witness for C6 (amended) on a three-option listbox. -/
theorem c6_next_cycle_w :
    (Nat.iterate DashListbox.selectNext lbThreeSel.options.length lbThreeSel).selMap
      = lbThreeSel.selMap :=
  c6_next_cycle lbThreeSel (by decide)

/-- C7 counterexample: starting from "no selection", select-next then
select-prev (or prev then next) does NOT restore the no-selection
state. -/
theorem c7_inverse_fails_without_selection :
    lbOneNone.countSelected = 0 ∧
    (lbOneNone.selectNext.selectPrev).selMap ≠ lbOneNone.selMap ∧
    (lbOneNone.selectPrev.selectNext).selMap ≠ lbOneNone.selMap := by
  decide

/-- C7 (amended): with exactly one option selected, selecting
`_nextOption()` then `_prevOption()` (or vice versa) restores the
original selection flags. -/
theorem c7_next_prev_inverse (lb : DashListbox) (h : lb.countSelected = 1) :
    (lb.selectNext.selectPrev).selMap = lb.selMap ∧
    (lb.selectPrev.selectNext).selMap = lb.selMap := by
  obtain ⟨i, hi, hsel⟩ := lb.exists_oneHot_selMap h
  have hn0 : 0 < lb.options.length := by omega
  constructor
  · obtain ⟨ha, hb⟩ := lb.selectNext_oneHot i hsel hi
    have hlt : (i + 1) % lb.options.length < lb.options.length :=
      Nat.mod_lt _ hn0
    obtain ⟨hc2, _⟩ := lb.selectNext.selectPrev_oneHot
      ((i + 1) % lb.options.length) (by rw [hb]; exact ha)
      (by rw [hb]; exact hlt)
    rw [hb] at hc2
    rw [hc2, hsel]
    congr 1
    have hrw : (i + 1) % lb.options.length + lb.options.length - 1
        = (i + 1) % lb.options.length + (lb.options.length - 1) := by omega
    rw [hrw, Nat.mod_add_mod]
    have hsum : i + 1 + (lb.options.length - 1) = i + lb.options.length := by
      omega
    rw [hsum, Nat.add_mod_right]
    exact Nat.mod_eq_of_lt hi
  · obtain ⟨ha, hb⟩ := lb.selectPrev_oneHot i hsel hi
    have hlt : (i + lb.options.length - 1) % lb.options.length
        < lb.options.length := Nat.mod_lt _ hn0
    obtain ⟨hc2, _⟩ := lb.selectPrev.selectNext_oneHot
      ((i + lb.options.length - 1) % lb.options.length)
      (by rw [hb]; exact ha) (by rw [hb]; exact hlt)
    rw [hb] at hc2
    rw [hc2, hsel]
    congr 1
    rw [Nat.mod_add_mod]
    have hsum : i + lb.options.length - 1 + 1 = i + lb.options.length := by
      omega
    rw [hsum, Nat.add_mod_right]
    exact Nat.mod_eq_of_lt hi

/-- Witness for C7 (amended) on a three-option listbox. -/
theorem c7_next_prev_inverse_w :
    (lbThreeSel.selectNext.selectPrev).selMap = lbThreeSel.selMap ∧
    (lbThreeSel.selectPrev.selectNext).selMap = lbThreeSel.selMap :=
  c7_next_prev_inverse lbThreeSel (by decide)
